import Mathlib

/-!
Shallow embedding of the epidemic simulation engine in
`src/src/EpidemicSimulation.jsx`.

Conventions of the embedding:
* JavaScript numbers are modelled as exact rationals (`ℚ`); decimal
  literals in the source become the corresponding exact rationals.
* `Math.sqrt` is modelled by `ratSqrt`, which is exact whenever its
  argument is the square of a rational (which is the case at every
  concrete input evaluated in this file) and a floor-style
  approximation otherwise.
* `Math.random()` draws are threaded explicitly: every sampling
  function receives a stream `r : ℕ → ℚ` of uniform draws together
  with the index `k` of the next unconsumed draw, and returns the new
  index.  Draws are consumed in exactly the order and under exactly
  the guards of the source.
* Nullable JavaScript fields become `Option`; the implicit JavaScript
  `null`-to-`0` coercion in arithmetic (`sim.time - person.exposedTime`)
  is rendered with `Option.getD 0`.
* The mutable `simulationRef` state becomes the explicit `Sim`
  structure; in-place mutation becomes functional update.
-/

namespace Epidemic

/-- Health statuses assigned by the source: the string values
`healthy`, `exposed`, `infected` (infectious-symptomatic),
`asymptomatic` (infectious-asymptomatic), `quarantined`, `recovered`,
`dead`. These are the only strings the source ever stores in
`person.status`. -/
inductive Status
  | healthy
  | exposed
  | infected
  | asymptomatic
  | quarantined
  | recovered
  | dead
deriving DecidableEq, Repr

/-- Age groups: drawn at creation, `r < 0.25 → child`,
`r < 0.8 → adult`, otherwise `senior`. -/
inductive AgeGroup
  | child
  | adult
  | senior
deriving DecidableEq, Repr

/-- One agent, mirroring the object literal pushed in
`initializeSimulation` (source lines 49-67). -/
structure Person where
  id : ℕ
  x : ℚ
  y : ℚ
  vx : ℚ
  vy : ℚ
  status : Status
  infectedTime : Option ℚ
  ageGroup : AgeGroup
  exposedTime : Option ℚ
  incubationPeriod : ℚ
  asymptomatic : Bool
  infectionRadius : ℚ
  personalRecovery : ℚ
  oldRecoveryTime : ℚ
  immunityEndTime : Option ℚ
  infectedBy : Option ℕ
  infectionsSpread : ℕ
deriving DecidableEq, Repr

/-- A transmission-event record pushed onto `sim.infections`
(source lines 138-142). -/
structure Infection where
  fromId : ℕ
  toId : ℕ
  time : ℚ
deriving DecidableEq, Repr

/-- The mutable simulation state `simulationRef.current`. -/
structure Sim where
  people : List Person
  time : ℚ
  infections : List Infection
deriving DecidableEq, Repr

/-- The configuration sliders/toggles read by the engine, together
with the canvas dimensions and the speed multiplier.
`healthcareCapacity` and `vaccinationRate` are carried for fidelity
although the reference engine never reads them in any sampler. -/
structure Config where
  populationSize : ℕ
  infectionRate : ℚ
  recoveryTime : ℚ
  mobilityRate : ℚ
  initialInfected : ℕ
  quarantineDelay : ℚ
  maskEnabled : Bool
  healthcareCapacity : ℚ
  vaccinationRate : ℚ
  immunityDuration : ℚ
  speed : ℚ
  w : ℚ
  h : ℚ
deriving DecidableEq, Repr

/-- Default used for out-of-range list reads (never hit at the indices
generated by the pair scan). -/
def defaultPerson : Person where
  id := 0
  x := 0
  y := 0
  vx := 0
  vy := 0
  status := .healthy
  infectedTime := none
  ageGroup := .adult
  exposedTime := none
  incubationPeriod := 0
  asymptomatic := false
  infectionRadius := 0
  personalRecovery := 0
  oldRecoveryTime := 0
  immunityEndTime := none
  infectedBy := none
  infectionsSpread := 0

instance : Inhabited Person := ⟨defaultPerson⟩

/-- Newton iteration for the integer square root, with explicit fuel
so that the kernel can evaluate it. -/
def sqrtIter (n : ℕ) : ℕ → ℕ → ℕ
  | 0, g => g
  | fuel + 1, g =>
    let g' := (g + n / g) / 2
    if g' < g then sqrtIter n fuel g' else g

/-- Floor integer square root: the same value as `Nat.sqrt` (proved
in `natSqrt_eq` below), but with explicit fuel instead of
well-founded recursion so that the kernel can evaluate it. -/
def natSqrt (n : ℕ) : ℕ :=
  if n ≤ 1 then n else sqrtIter n n (n / 2)

/-- Model of `Math.sqrt` on the nonnegative rationals: writing
`q = n / d` in lowest terms, `ratSqrt q = natSqrt (n * d) / d`.
This agrees with the real square root whenever `q` is the square of a
rational (proved in `ratSqrt_sq` below); in particular it is exact at
every concrete argument produced in this development, where only
perfect squares occur. -/
def ratSqrt (q : ℚ) : ℚ :=
  (natSqrt (q.num.toNat * q.den) : ℚ) / (q.den : ℚ)

/-- Random draws of one agent at creation, one field per
`Math.random()` call in `initializeSimulation` (source lines 51-62). -/
structure InitRand where
  xr : ℚ
  yr : ℚ
  vxr : ℚ
  vyr : ℚ
  ager : ℚ
  incubr : ℚ
  radiusr : ℚ
  recovr : ℚ
deriving DecidableEq, Repr

/-- Build agent `i`, mirroring the object literal of
`initializeSimulation` (source lines 48-68). -/
def initPerson (cfg : Config) (i : ℕ) (rnd : InitRand) : Person where
  id := i
  x := rnd.xr * cfg.w
  y := rnd.yr * cfg.h
  vx := (rnd.vxr - 0.5) * 2
  vy := (rnd.vyr - 0.5) * 2
  status := if i < cfg.initialInfected then .infected else .healthy
  infectedTime := if i < cfg.initialInfected then some 0 else none
  ageGroup :=
    if rnd.ager < 0.25 then .child else if rnd.ager < 0.8 then .adult else .senior
  exposedTime := none
  incubationPeriod := 1000 + rnd.incubr * 2000
  asymptomatic := false
  infectionRadius := 8 + rnd.radiusr * 4
  personalRecovery := cfg.recoveryTime * (0.7 + rnd.recovr * 0.6)
  oldRecoveryTime := cfg.recoveryTime
  immunityEndTime := none
  infectedBy := none
  infectionsSpread := 0

/-- Model of `initializeSimulation` (source lines 41-84): builds
`populationSize` agents, the first `initialInfected` of them seeded
as infected at clock 0, resets the clock and clears the event log. -/
def initSimulation (cfg : Config) (rnd : ℕ → InitRand) : Sim where
  people := (List.range cfg.populationSize).map (fun i => initPerson cfg i (rnd i))
  time := 0
  infections := []

/-- Model of the per-agent body of `updateSimulationParameters`
(source lines 91-108): re-derive `personalRecovery` from the stored
previous base, falling back to an assumed base of 5000 when the
stored base is not positive, then remember the new base.  The
JavaScript guard `person.oldRecoveryTime && person.oldRecoveryTime > 0`
is `0 < oldRecoveryTime` on numbers. -/
def updatePerson (recoveryTime : ℚ) (p : Person) : Person :=
  let pr :=
    if 0 < p.oldRecoveryTime then recoveryTime * (p.personalRecovery / p.oldRecoveryTime)
    else recoveryTime * (p.personalRecovery / 5000)
  { p with personalRecovery := pr, oldRecoveryTime := recoveryTime }

/-- Model of `updateSimulationParameters` (source lines 87-109);
note the loop visits every agent, with no status check. -/
def updateSimulationParameters (recoveryTime : ℚ) (sim : Sim) : Sim :=
  if sim.people.length = 0 then sim
  else { sim with people := sim.people.map (updatePerson recoveryTime) }

/-- Model of `determineOutcome` (source lines 150-161).  The
`overCapacity` parameter mirrors the JavaScript parameter; the single
call site (line 230) passes no argument, i.e. `undefined`, which is
falsy, embedded as `false`.  `person.immunityDurationRef` is never
assigned anywhere, so `person.immunityDurationRef || immunityDuration`
always reads the configuration value. -/
def determineOutcome (cfg : Config) (time : ℚ) (p : Person) (overCapacity : Bool)
    (draw : ℚ) : Person :=
  let baseMortality : ℚ :=
    if p.ageGroup = .child then 0.2 else if p.ageGroup = .adult then 0.05 else 0.2
  let mortalityRate := baseMortality * (if overCapacity then 1.5 else 1.0)
  if draw < mortalityRate then
    { p with status := .dead, vx := 0, vy := 0 }
  else
    { p with status := .recovered, immunityEndTime := some (time + cfg.immunityDuration) }

/-- Result of one directed transmission attempt: the updated source
and target, the event to append (if the draw succeeded), and whether
a uniform draw was consumed. -/
structure AttemptResult where
  src : Person
  tgt : Person
  event : Option Infection
  drew : Bool
deriving DecidableEq, Repr

/-- Model of `attemptInfection` (source lines 123-147).  On success
the source assigns the status `exposed` and on the very next
line overwrites it with `infected`; the net effect
recorded here is the final `infected` status with `exposedTime` and
`infectedTime` both set to the current clock. -/
def attemptInfection (cfg : Config) (time : ℚ) (p1 p2 : Person) (draw : ℚ) :
    AttemptResult :=
  if p1.status = .quarantined ∨ p2.status = .quarantined then
    ⟨p1, p2, none, false⟩
  else if (p1.status = .infected ∨ p1.status = .asymptomatic) ∧ p2.status = .healthy then
    let maskFactor : ℚ := if cfg.maskEnabled then 0.5 else 1
    let asympFactor : ℚ := if p1.status = .asymptomatic then 0.5 else 1
    let effectiveRate := cfg.infectionRate * maskFactor * asympFactor
    if draw < effectiveRate then
      ⟨{ p1 with infectionsSpread := p1.infectionsSpread + 1 },
       { p2 with status := .infected, exposedTime := some time,
                 infectedTime := some time, infectedBy := some p1.id },
       some ⟨p1.id, p2.id, time⟩, true⟩
    else ⟨p1, p2, none, true⟩
  else ⟨p1, p2, none, false⟩

/-- Movement phase of the per-person update (source lines 182-194):
with probability `mobilityRate` perturb the velocity and clamp the
speed to `0.2 + 1.8 * mobilityRate`.  Consumes the gate draw whenever
the short-circuit reaches `Math.random()`, and two further draws when
the gate passes. -/
def movementUpdate (cfg : Config) (r : ℕ → ℚ) (p : Person) (k : ℕ) : Person × ℕ :=
  if p.status ≠ .quarantined ∧ 0 < cfg.mobilityRate then
    if r k < cfg.mobilityRate then
      let vx := p.vx + (r (k + 1) - 0.5) * 0.5 * cfg.mobilityRate
      let vy := p.vy + (r (k + 2) - 0.5) * 0.5 * cfg.mobilityRate
      let maxSpeed := 0.2 + 1.8 * cfg.mobilityRate
      let currentSpeed := ratSqrt (vx ^ 2 + vy ^ 2)
      if maxSpeed < currentSpeed then
        ({ p with vx := vx / currentSpeed * maxSpeed, vy := vy / currentSpeed * maxSpeed },
         k + 3)
      else ({ p with vx := vx, vy := vy }, k + 3)
    else (p, k + 1)
  else (p, k)

/-- Position displacement (source lines 197-200): skipped for
quarantined agents, scaled by `mobilityRate`. -/
def positionUpdate (cfg : Config) (p : Person) : Person :=
  if p.status ≠ .quarantined then
    { p with x := p.x + p.vx * cfg.mobilityRate, y := p.y + p.vy * cfg.mobilityRate }
  else p

/-- Boundary reflection (source lines 203-210): on crossing an edge
the velocity component is negated and the position clamped to
`[5, w-5]` (resp. `[5, h-5]`). -/
def boundaryUpdate (cfg : Config) (p : Person) : Person :=
  let p1 :=
    if p.x < 5 ∨ p.x > cfg.w - 5 then
      { p with vx := -p.vx, x := max 5 (min (cfg.w - 5) p.x) }
    else p
  if p1.y < 5 ∨ p1.y > cfg.h - 5 then
    { p1 with vy := -p1.vy, y := max 5 (min (cfg.h - 5) p1.y) }
  else p1

/-- Exposed-to-infectious progression (source lines 213-217): one
draw decides the 40% asymptomatic branch. -/
def exposedUpdate (time : ℚ) (r : ℕ → ℚ) (p : Person) (k : ℕ) : Person × ℕ :=
  if p.status = .exposed ∧ time - p.exposedTime.getD 0 > p.incubationPeriod then
    let asym := r k < 0.4
    ({ p with asymptomatic := asym,
              status := if asym then .asymptomatic else .infected,
              infectedTime := some time }, k + 1)
  else (p, k)

/-- Infected-to-quarantined transition (source lines 220-225):
`person.quarantineDelayRef` is never assigned, so the delay read is
always the configuration value; velocity is zeroed on entry. -/
def quarantineUpdate (cfg : Config) (time : ℚ) (p : Person) : Person :=
  if p.status = .infected ∧ time - p.infectedTime.getD 0 > cfg.quarantineDelay then
    { p with status := .quarantined, vx := 0, vy := 0 }
  else p

/-- Recovery check (source lines 228-231): when an infectious-state
elapsed infectious time of an agent exceeds its personal recovery
duration, resolve the outcome; `determineOutcome(person)` passes
`undefined` for `overCapacity`, embedded as `false`. -/
def recoveryUpdate (cfg : Config) (time : ℚ) (r : ℕ → ℚ) (p : Person) (k : ℕ) :
    Person × ℕ :=
  if (p.status = .infected ∨ p.status = .quarantined ∨ p.status = .asymptomatic) ∧
      time - p.infectedTime.getD 0 > p.personalRecovery then
    (determineOutcome cfg time p false (r k), k + 1)
  else (p, k)

/-- One iteration of the `people.forEach` body of `updateSimulation`
(source lines 176-232): dead agents are skipped entirely; the phases
apply sequentially to the same agent. -/
def stepPerson (cfg : Config) (time : ℚ) (r : ℕ → ℚ) (p : Person) (k : ℕ) :
    Person × ℕ :=
  if p.status = .dead then (p, k)
  else
    let m := movementUpdate cfg r p k
    let p2 := positionUpdate cfg m.1
    let p3 := boundaryUpdate cfg p2
    let e := exposedUpdate time r p3 m.2
    let p5 := quarantineUpdate cfg time e.1
    recoveryUpdate cfg time r p5 e.2

/-- The full `forEach` pass, in list order, threading the draw
index. -/
def stepPeople (cfg : Config) (time : ℚ) (r : ℕ → ℚ) :
    List Person → ℕ → List Person × ℕ
  | [], k => ([], k)
  | p :: ps, k =>
    let q := stepPerson cfg time r p k
    let rest := stepPeople cfg time r ps q.2
    (q.1 :: rest.1, rest.2)

/-- The ordered index pairs `(i, j)` with `i < j < n` visited by the
nested collision loops (source lines 235-236). -/
def allPairs (n : ℕ) : List (ℕ × ℕ) :=
  (List.range n).flatMap fun i =>
    ((List.range n).filter (fun j => decide (i < j))).map (fun j => (i, j))

/-- Running state of the collision scan: agent list, event log and
next draw index. -/
structure PairState where
  people : List Person
  infections : List Infection
  k : ℕ
deriving Repr

/-- The de-overlap displacement of source lines 246-255: push the two
agents apart symmetrically along their connecting line to restore the
10-unit contact distance.  `Math.cos(Math.atan2(dy, dx))` is
`dx / distance` and the sine is `dy / distance` (with
`atan2(0,0) = 0`, hence cosine `1` and sine `0` at distance zero). -/
def separated (p1 p2 : Person) : Person × Person :=
  let dx := p1.x - p2.x
  let dy := p1.y - p2.y
  let distance := ratSqrt (dx * dx + dy * dy)
  let cosv := if distance = 0 then 1 else dx / distance
  let sinv := if distance = 0 then 0 else dy / distance
  let overlap := 10 - distance
  ({ p1 with x := p1.x + cosv * overlap / 2, y := p1.y + sinv * overlap / 2 },
   { p2 with x := p2.x - cosv * overlap / 2, y := p2.y - sinv * overlap / 2 })

/-- Collision response for one agent pair in contact (source lines
246-259): separate the two agents and attempt infection in both
directions (first source-to-target in scan order, then the reverse,
on the updated agents).  Returns the updated pair, the produced
transmission events in push order, and the advanced draw index. -/
def pairCollide (cfg : Config) (time : ℚ) (r : ℕ → ℚ) (p1 p2 : Person) (k : ℕ) :
    Person × Person × List Infection × ℕ :=
  let q := separated p1 p2
  let a1 := attemptInfection cfg time q.1 q.2 (r k)
  let k1 := k + (if a1.drew then 1 else 0)
  let a2 := attemptInfection cfg time a1.tgt a1.src (r k1)
  let k2 := k1 + (if a2.drew then 1 else 0)
  (a2.tgt, a2.src, a1.event.toList ++ a2.event.toList, k2)

/-- One iteration of the collision loop body (source lines 237-260):
read the pair at indices `(i, j)`; when it is closer than the 10-unit
contact distance, run the collision response and write both agents
back; otherwise the state is untouched. -/
def pairStep (cfg : Config) (time : ℚ) (r : ℕ → ℚ) (st : PairState) (ij : ℕ × ℕ) :
    PairState :=
  let p1 := st.people.getD ij.1 defaultPerson
  let p2 := st.people.getD ij.2 defaultPerson
  if ratSqrt ((p1.x - p2.x) * (p1.x - p2.x) + (p1.y - p2.y) * (p1.y - p2.y)) < 10 then
    let res := pairCollide cfg time r p1 p2 st.k
    { people := (st.people.set ij.1 res.1).set ij.2 res.2.1,
      infections := st.infections ++ res.2.2.1,
      k := res.2.2.2 }
  else st

/-- Model of `updateSimulation` (source lines 163-325), the
`advance` operation: advance the clock by `16 * speed`, run the
per-person pass, then the collision/transmission scan.  The
statistics of lines 264-301 are modelled as the pure queries below on
the resulting state. -/
def updateSimulation (cfg : Config) (r : ℕ → ℚ) (sim : Sim) (k : ℕ) : Sim × ℕ :=
  let time := sim.time + 16 * cfg.speed
  let stepped := stepPeople cfg time r sim.people k
  let st := (allPairs stepped.1.length).foldl (pairStep cfg time r)
    ⟨stepped.1, sim.infections, stepped.2⟩
  ({ people := st.people, time := time, infections := st.infections }, st.k)

/-- Per-status count, as accumulated by the if/else chain of source
lines 265-274. -/
def countStatus (s : Status) (sim : Sim) : ℕ :=
  (sim.people.filter (fun p => decide (p.status = s))).length

/-- The filter building `initialInfections` (source lines 278-283). -/
def r0List (n : ℕ) (sim : Sim) : List Person :=
  sim.people.filter fun p =>
    decide (p.id < n) && p.infectedTime.isSome &&
      decide (p.status = .recovered ∨ p.status = .dead)

/-- R₀ (source lines 277-287): mean `infectionsSpread` over the
concluded index cases; the source leaves the numeric sentinel `0`
(rendered as absent by the UI) when the subset is empty, embedded as
`none`. -/
def r0Value (n : ℕ) (sim : Sim) : Option ℚ :=
  let l := r0List n sim
  if l.length = 0 then none
  else some (((l.map fun p => (p.infectionsSpread : ℚ)).sum) / (l.length : ℚ))

/-- The filter building `completedInfections` (source lines 290-293). -/
def rtList (sim : Sim) : List Person :=
  sim.people.filter fun p =>
    p.infectedTime.isSome && decide (p.status = .recovered ∨ p.status = .dead)

/-- Rₜ (source lines 295-299), with the same empty-set convention as
`r0Value`. -/
def rtValue (sim : Sim) : Option ℚ :=
  let l := rtList sim
  if l.length = 0 then none
  else some (((l.map fun p => (p.infectionsSpread : ℚ)).sum) / (l.length : ℚ))

/-- Specification-side filter for R₀, following the spec words: the
agents with `id < initialInfectedCount` whose status is Recovered or
Dead (no condition on `infectedTime`). -/
def r0SpecList (n : ℕ) (sim : Sim) : List Person :=
  sim.people.filter fun p =>
    decide (p.id < n) && decide (p.status = .recovered ∨ p.status = .dead)

/-- Specification-side R₀: mean `infectionsSpread` over `r0SpecList`,
absent when the subset is empty. -/
def r0Spec (n : ℕ) (sim : Sim) : Option ℚ :=
  let l := r0SpecList n sim
  if l.length = 0 then none
  else some (((l.map fun p => (p.infectionsSpread : ℚ)).sum) / (l.length : ℚ))

/-- Specification-side filter for Rₜ: all agents whose status is
Recovered or Dead. -/
def rtSpecList (sim : Sim) : List Person :=
  sim.people.filter fun p => decide (p.status = .recovered ∨ p.status = .dead)

/-- Specification-side Rₜ. -/
def rtSpec (sim : Sim) : Option ℚ :=
  let l := rtSpecList sim
  if l.length = 0 then none
  else some (((l.map fun p => (p.infectionsSpread : ℚ)).sum) / (l.length : ℚ))

/-- States reachable from an initialization with configuration
`cfg₀`: subsequent `advance` and parameter-update steps may use any
configuration (slider changes other than population size and index
cases do not re-initialize). -/
inductive ReachableFrom (cfg₀ : Config) : Sim → Prop
  | init (rnd : ℕ → InitRand) : ReachableFrom cfg₀ (initSimulation cfg₀ rnd)
  | step (cfg : Config) (r : ℕ → ℚ) (k : ℕ) {sim : Sim} :
      ReachableFrom cfg₀ sim → ReachableFrom cfg₀ (updateSimulation cfg r sim k).1
  | params (rt : ℚ) {sim : Sim} :
      ReachableFrom cfg₀ sim → ReachableFrom cfg₀ (updateSimulationParameters rt sim)

/-- Iterated advance with a fixed configuration and draw stream,
restarting the draw index at 0 each tick. -/
def advanceSteps (cfg : Config) (r : ℕ → ℚ) (n : ℕ) (sim : Sim) : Sim :=
  (fun s => (updateSimulation cfg r s 0).1)^[n] sim

/-! ### Concrete configurations and states used in witnesses and
counterexamples

The arithmetic of `Rat` is irreducible by default; the concrete
evaluations below go through `decide`, so the operations are locally
re-marked semireducible. -/

attribute [local semireducible] Rat.ofScientific Rat.mul Rat.inv Rat.add Rat.sub

/-- A small configuration with infection probability 0.8 and masks
off, used to exercise `attemptInfection`. -/
def cfgA : Config := ⟨2, 0.8, 5000, 0.5, 1, 3000, false, 30, 0, 15000, 1, 700, 500⟩

/-- An infectious-symptomatic source agent. -/
def pSrc : Person := { defaultPerson with id := 0, status := .infected, infectedTime := some 0 }

/-- A healthy target agent. -/
def pTgt : Person := { defaultPerson with id := 1, x := 5, status := .healthy }

/-- A dead agent with a recorded recovery duration, used to probe
`updateSimulationParameters`. -/
def pDeadParam : Person :=
  { defaultPerson with status := .dead, personalRecovery := 5000, oldRecoveryTime := 5000 }

/-- A one-agent state whose only agent is dead. -/
def simDeadParam : Sim := ⟨[pDeadParam], 0, []⟩

/-- Configuration for the same-tick chained-transmission run: three
agents, infection probability 0.8, zero mobility. -/
def cfgC10 : Config := ⟨3, 0.8, 5000, 0, 1, 3000, false, 30, 0, 15000, 1, 700, 500⟩

/-- Initialization draws putting the three agents of `cfgC10` at
x-coordinates 100, 105 and 111 on the same horizontal line, all with
zero velocity and median draws elsewhere. -/
def rndC10 : ℕ → InitRand := fun i =>
  { xr := if i = 0 then 1/7 else if i = 1 then 3/20 else 111/700,
    yr := 1/5, vxr := 1/2, vyr := 1/2, ager := 1/2, incubr := 1/2,
    radiusr := 1/2, recovr := 1/2 }

/-- The freshly initialized three-agent state: agent 0 infected at
(100, 100), agents 1 and 2 healthy at (105, 100) and (111, 100). -/
def simC10 : Sim := initSimulation cfgC10 rndC10

/-- The all-zero draw stream: every uniform draw comes out 0, so
every transmission attempt with positive effective rate succeeds. -/
def rZero : ℕ → ℚ := fun _ => 0

/-- Configuration for the dead-agent displacement run: two agents,
recovery time 2000, mobility 0.1, speed 3. -/
def cfgC2 : Config := ⟨2, 0.1, 2000, 0.1, 1, 25000, false, 30, 0, 15000, 3, 700, 500⟩

/-- Initialization draws for `cfgC2`: agent 0 is an infected child at
(100, 100) with zero velocity and personal recovery 2000; agent 1 is
a healthy adult at (115, 100) drifting left with velocity (-1, 0). -/
def rndC2 : ℕ → InitRand := fun i =>
  if i = 0 then
    { xr := 1/7, yr := 1/5, vxr := 1/2, vyr := 1/2, ager := 1/10, incubr := 1/2,
      radiusr := 1/2, recovr := 1/2 }
  else
    { xr := 23/140, yr := 1/5, vxr := 0, vyr := 1/2, ager := 1/2, incubr := 1/2,
      radiusr := 1/2, recovr := 1/2 }

/-- The initial two-agent state for the dead-agent displacement run. -/
def simC2 : Sim := initSimulation cfgC2 rndC2

/-- The constant draw stream 0.15: movement gates (threshold 0.1)
always fail, the child mortality draw (threshold 0.2) always
succeeds. -/
def rC2 : ℕ → ℚ := fun _ => 3/20

/-- After 50 ticks of `cfgC2`, agent 0 has died at (100, 100) with
zero velocity and agent 1 has drifted to (110, 100). -/
def deadStateC2 : Sim := advanceSteps cfgC2 rC2 50 simC2

/-- An infectious child agent used to exercise `determineOutcome`. -/
def pChild : Person :=
  { defaultPerson with status := .infected, infectedTime := some 0,
                       ageGroup := .child, personalRecovery := 10 }

/-- Median initialization draws, used for small witness states. -/
def rndConst : ℕ → InitRand :=
  fun _ => { xr := 1/2, yr := 1/2, vxr := 1/2, vyr := 1/2, ager := 1/2,
             incubr := 1/2, radiusr := 1/2, recovr := 1/2 }

/-- The per-agent invariant maintained by every reachable state:
the Exposed and Infectious-Asymptomatic statuses never occur (Exposed
is overwritten in the same assignment sequence that creates it, so
the branch assigning the asymptomatic status never fires), Quarantined
and Dead agents have zero velocity, and any agent that has left
Healthy carries an infection timestamp. -/
def InvPerson (p : Person) : Prop :=
  (p.status ≠ .exposed ∧ p.status ≠ .asymptomatic) ∧
  (p.status = .quarantined ∨ p.status = .dead → p.vx = 0 ∧ p.vy = 0) ∧
  (p.status ≠ .healthy → p.infectedTime ≠ none)

/-- The state invariant: every agent satisfies `InvPerson`. -/
def InvSim (sim : Sim) : Prop := ∀ p ∈ sim.people, InvPerson p

/-! ### Correctness of the square-root embedding -/

/-- With sufficient fuel, the fuel-based Newton iteration computes
exactly the well-founded iteration of `Nat.sqrt`. -/
theorem sqrtIter_eq (n : ℕ) :
    ∀ g fuel, g ≤ fuel → sqrtIter n fuel g = Nat.sqrt.iter n g := by
  intro g
  induction g using Nat.strong_induction_on with
  | _ g ih =>
    intro fuel hf
    match fuel with
    | 0 =>
      have hg : g = 0 := Nat.le_zero.mp hf
      subst hg
      rw [sqrtIter, Nat.sqrt.iter]
      simp
    | fuel + 1 =>
      rw [sqrtIter, Nat.sqrt.iter]
      by_cases hlt : (g + n / g) / 2 < g
      · rw [if_pos hlt, dif_pos hlt]
        exact ih _ hlt fuel (by omega)
      · rw [if_neg hlt, dif_neg hlt]

/-- The fuel-based integer square root agrees with `Nat.sqrt`. -/
theorem natSqrt_eq (n : ℕ) : natSqrt n = Nat.sqrt n := by
  unfold natSqrt Nat.sqrt
  split_ifs with h
  · rfl
  · exact sqrtIter_eq n (n / 2) n (Nat.div_le_self n 2)

/-- `ratSqrt` is exact on squares of nonnegative rationals, hence on
every concrete argument arising in this development. -/
theorem ratSqrt_sq (a : ℚ) (h : 0 ≤ a) : ratSqrt (a * a) = a := by
  unfold ratSqrt
  rw [natSqrt_eq, Rat.mul_self_num, Rat.mul_self_den]
  have htoNat : (a.num * a.num).toNat = a.num.natAbs * a.num.natAbs := by
    rw [← Int.natAbs_mul_self]
    exact Int.toNat_ofNat _
  have hsq : a.num.natAbs * a.num.natAbs * (a.den * a.den) =
      (a.num.natAbs * a.den) ^ 2 := by ring
  rw [htoNat, hsq, Nat.sqrt_eq']
  have hnatAbs : (a.num.natAbs : ℚ) = ((a.num : ℤ) : ℚ) := by
    have h1 : ((a.num.natAbs : ℤ) : ℚ) = ((a.num : ℤ) : ℚ) := by
      rw [Int.natAbs_of_nonneg (Rat.num_nonneg.mpr h)]
    rwa [Int.cast_natCast] at h1
  have hden : (a.den : ℚ) ≠ 0 := by
    exact_mod_cast a.den_nz
  push_cast
  rw [hnatAbs, mul_div_mul_right _ _ hden]
  exact Rat.num_div_den a

/-! ### Projection lemmas for `updatePerson` -/

theorem updatePerson_personalRecovery (rt : ℚ) (p : Person) :
    (updatePerson rt p).personalRecovery =
      if 0 < p.oldRecoveryTime then rt * (p.personalRecovery / p.oldRecoveryTime)
      else rt * (p.personalRecovery / 5000) := rfl

theorem updatePerson_oldRecoveryTime (rt : ℚ) (p : Person) :
    (updatePerson rt p).oldRecoveryTime = rt := rfl

theorem updatePerson_status (rt : ℚ) (p : Person) :
    (updatePerson rt p).status = p.status := rfl

theorem updatePerson_x (rt : ℚ) (p : Person) : (updatePerson rt p).x = p.x := rfl

theorem updatePerson_y (rt : ℚ) (p : Person) : (updatePerson rt p).y = p.y := rfl

theorem updatePerson_vx (rt : ℚ) (p : Person) : (updatePerson rt p).vx = p.vx := rfl

theorem updatePerson_vy (rt : ℚ) (p : Person) : (updatePerson rt p).vy = p.vy := rfl

theorem updatePerson_infectedTime (rt : ℚ) (p : Person) :
    (updatePerson rt p).infectedTime = p.infectedTime := rfl

/-! ### Claim C1 -/

/-- Claim C1, counterexample: with infection probability 0.8 and a
successful draw (0), the transmission attempt succeeds (an event is
produced) but leaves the target with status `infected`
(Infectious-Symptomatic), not `exposed`: the source overwrites the
just-assigned Exposed status on the next line. -/
theorem attemptInfection_not_exposed_counterexample :
    (attemptInfection cfgA 100 pSrc pTgt 0).event.isSome = true ∧
    (attemptInfection cfgA 100 pSrc pTgt 0).tgt.status = .infected ∧
    (attemptInfection cfgA 100 pSrc pTgt 0).tgt.status ≠ .exposed := by
  decide

/-- Claim C1, amended: a successful transmission attempt sets the
target status to Infectious-Symptomatic (`infected`), records the
exposure and infection timestamps as the current clock, sets the
back-reference to the source id, increments the source transmission
count by one, and produces exactly one transmission-event record
(from-id, to-id, timestamp). -/
theorem attemptInfection_success_effects (cfg : Config) (time : ℚ) (p1 p2 : Person)
    (draw : ℚ) (h1 : p1.status = .infected ∨ p1.status = .asymptomatic)
    (h2 : p2.status = .healthy)
    (h3 : draw < cfg.infectionRate * (if cfg.maskEnabled then 0.5 else 1) *
      (if p1.status = .asymptomatic then 0.5 else 1)) :
    attemptInfection cfg time p1 p2 draw =
      ⟨{ p1 with infectionsSpread := p1.infectionsSpread + 1 },
       { p2 with status := .infected, exposedTime := some time,
                 infectedTime := some time, infectedBy := some p1.id },
       some ⟨p1.id, p2.id, time⟩, true⟩ := by
  have hq1 : ¬ p1.status = .quarantined := by rcases h1 with h | h <;> simp [h]
  have hq2 : ¬ p2.status = .quarantined := by simp [h2]
  simp only [attemptInfection]
  rw [if_neg (by tauto : ¬(p1.status = .quarantined ∨ p2.status = .quarantined)),
    if_pos ⟨h1, h2⟩, if_pos h3]

/-- Witness for `attemptInfection_success_effects` at a concrete
input. -/
theorem attemptInfection_success_effects_witness :
    attemptInfection cfgA 100 pSrc pTgt 0 =
      ⟨{ pSrc with infectionsSpread := pSrc.infectionsSpread + 1 },
       { pTgt with status := .infected, exposedTime := some 100,
                   infectedTime := some 100, infectedBy := some pSrc.id },
       some ⟨pSrc.id, pTgt.id, 100⟩, true⟩ :=
  attemptInfection_success_effects cfgA 100 pSrc pTgt 0 (Or.inl rfl) rfl
    (by decide)

/-! ### Claim C3 -/

/-- Core of the idempotence argument: applying the per-agent rescale
twice with the same nonnegative base gives the same recovery duration
as applying it once. -/
theorem updatePerson_idem (rt : ℚ) (h : 0 ≤ rt) (p : Person) :
    (updatePerson rt (updatePerson rt p)).personalRecovery =
      (updatePerson rt p).personalRecovery := by
  rw [updatePerson_personalRecovery, updatePerson_oldRecoveryTime,
    updatePerson_personalRecovery]
  rcases h.lt_or_eq with hpos | hzero
  · rw [if_pos hpos, mul_comm rt, div_mul_cancel₀ _ (ne_of_gt hpos)]
  · rw [← hzero]
    simp

/-- Claim C3: `applyConfigUpdate` is idempotent in the base recovery
duration — a second call with the same (nonnegative) value leaves
every personal recovery duration where the first call put it. -/
theorem updateParameters_idempotent (rt : ℚ) (sim : Sim) (h : 0 ≤ rt) :
    (updateSimulationParameters rt (updateSimulationParameters rt sim)).people.map
      Person.personalRecovery =
      (updateSimulationParameters rt sim).people.map Person.personalRecovery := by
  by_cases hemp : sim.people.length = 0
  · have hinner : updateSimulationParameters rt sim = sim := by
      rw [updateSimulationParameters, if_pos hemp]
    rw [hinner, hinner]
  · have hinner : updateSimulationParameters rt sim =
        { sim with people := sim.people.map (updatePerson rt) } := by
      rw [updateSimulationParameters, if_neg hemp]
    rw [hinner]
    have hlen : ¬(({ sim with people := sim.people.map (updatePerson rt) } : Sim)).people.length = 0 := by
      simpa using hemp
    rw [updateSimulationParameters, if_neg hlen]
    simp only [List.map_map]
    exact List.map_congr_left fun p _ => updatePerson_idem rt h p

/-- Witness for `updateParameters_idempotent` at a concrete state. -/
theorem updateParameters_idempotent_witness :
    (updateSimulationParameters 10000 (updateSimulationParameters 10000 simDeadParam)).people.map
      Person.personalRecovery =
      (updateSimulationParameters 10000 simDeadParam).people.map Person.personalRecovery :=
  updateParameters_idempotent 10000 simDeadParam (by norm_num)

/-! ### Claim C4 -/

/-- Claim C4, amended (frame part): the parameter update never alters
any agent status, position or velocity. -/
theorem updateParameters_frame (rt : ℚ) (sim : Sim) :
    (updateSimulationParameters rt sim).people.map Person.status =
        sim.people.map Person.status ∧
    (updateSimulationParameters rt sim).people.map Person.x = sim.people.map Person.x ∧
    (updateSimulationParameters rt sim).people.map Person.y = sim.people.map Person.y ∧
    (updateSimulationParameters rt sim).people.map Person.vx = sim.people.map Person.vx ∧
    (updateSimulationParameters rt sim).people.map Person.vy = sim.people.map Person.vy := by
  by_cases hemp : sim.people.length = 0 <;>
    simp [updateSimulationParameters, hemp, List.map_map, Function.comp_def,
      updatePerson_status, updatePerson_x, updatePerson_y, updatePerson_vx, updatePerson_vy]

/-- Claim C4, counterexample to the Dead-untouched part: a dead agent
with recovery duration 5000 is rescaled to 10000 by
`updateSimulationParameters` — the loop has no status check. -/
theorem updateParameters_rescales_dead_counterexample :
    pDeadParam.status = .dead ∧
    pDeadParam.personalRecovery = 5000 ∧
    ((updateSimulationParameters 10000 simDeadParam).people.getD 0
        defaultPerson).personalRecovery = 10000 := by
  decide

/-! ### Claim C6 -/

/-- Claim C6: a transmission attempt changes nothing unless the
source is infectious (symptomatic or asymptomatic), the target is
healthy, and neither agent is quarantined; when the preconditions
hold, the attempt succeeds exactly when the single uniform draw is
below `infectionRate × maskFactor × asymptomaticFactor` with
`maskFactor = 0.5` when masks are enabled (else 1) and
`asymptomaticFactor = 0.5` when the source is asymptomatic (else 1). -/
theorem attemptInfection_contract (cfg : Config) (time : ℚ) (p1 p2 : Person) (draw : ℚ) :
    (¬((p1.status = .infected ∨ p1.status = .asymptomatic) ∧ p2.status = .healthy ∧
        p1.status ≠ .quarantined ∧ p2.status ≠ .quarantined) →
      attemptInfection cfg time p1 p2 draw = ⟨p1, p2, none, false⟩) ∧
    ((p1.status = .infected ∨ p1.status = .asymptomatic) ∧ p2.status = .healthy →
      ((attemptInfection cfg time p1 p2 draw).event.isSome = true ↔
        draw < cfg.infectionRate * (if cfg.maskEnabled then 0.5 else 1) *
          (if p1.status = .asymptomatic then 0.5 else 1))) := by
  constructor
  · intro hn
    simp only [attemptInfection]
    by_cases hq : p1.status = .quarantined ∨ p2.status = .quarantined
    · rw [if_pos hq]
    · rw [if_neg hq]
      have hnb : ¬((p1.status = .infected ∨ p1.status = .asymptomatic) ∧
          p2.status = .healthy) := fun hB =>
        hn ⟨hB.1, hB.2, fun h => hq (Or.inl h), fun h => hq (Or.inr h)⟩
      rw [if_neg hnb]
  · intro hp
    have hq : ¬(p1.status = .quarantined ∨ p2.status = .quarantined) := by
      rcases hp with ⟨h1, h2⟩
      rcases h1 with h | h <;> simp [h, h2]
    simp only [attemptInfection]
    rw [if_neg hq, if_pos hp]
    by_cases hd : draw < cfg.infectionRate * (if cfg.maskEnabled then (0.5 : ℚ) else 1) *
        (if p1.status = .asymptomatic then (0.5 : ℚ) else 1)
    · rw [if_pos hd]
      exact iff_of_true rfl hd
    · rw [if_neg hd]
      exact iff_of_false (by simp) hd

/-- Witness for `attemptInfection_contract` at a concrete input. -/
theorem attemptInfection_contract_witness :
    (attemptInfection cfgA 100 pSrc pTgt 0).event.isSome = true ↔
      (0 : ℚ) < cfgA.infectionRate * (if cfgA.maskEnabled then 0.5 else 1) *
        (if pSrc.status = .asymptomatic then 0.5 else 1) :=
  (attemptInfection_contract cfgA 100 pSrc pTgt 0).2 ⟨Or.inl rfl, rfl⟩

/-! ### Claim C8 -/

/-- Claim C8: in the reference call path `overCapacity` is always the
falsy missing argument, so the mortality threshold equals the
age-dependent base rate (0.20 for children, 0.05 for adults, 0.20 for
seniors); death zeroes the velocity, and otherwise the agent recovers
with immunity expiring at `clock + immunityDuration`. -/
theorem determineOutcome_base_mortality (cfg : Config) (time : ℚ) (r : ℕ → ℚ)
    (p : Person) (draw : ℚ) (k : ℕ) :
    ((determineOutcome cfg time p false draw).status = .dead ↔
      draw < (if p.ageGroup = .child then (0.2 : ℚ)
        else if p.ageGroup = .adult then 0.05 else 0.2)) ∧
    (draw < (if p.ageGroup = .child then (0.2 : ℚ)
        else if p.ageGroup = .adult then 0.05 else 0.2) →
      determineOutcome cfg time p false draw = { p with status := .dead, vx := 0, vy := 0 }) ∧
    (¬draw < (if p.ageGroup = .child then (0.2 : ℚ)
        else if p.ageGroup = .adult then 0.05 else 0.2) →
      determineOutcome cfg time p false draw =
        { p with status := .recovered,
                 immunityEndTime := some (time + cfg.immunityDuration) }) ∧
    ((p.status = .infected ∨ p.status = .quarantined ∨ p.status = .asymptomatic) ∧
        time - p.infectedTime.getD 0 > p.personalRecovery →
      recoveryUpdate cfg time r p k = (determineOutcome cfg time p false (r k), k + 1)) := by
  have hrate : (if p.ageGroup = .child then (0.2 : ℚ)
      else if p.ageGroup = .adult then 0.05 else 0.2) * (if (false : Bool) then 1.5 else 1.0) =
      (if p.ageGroup = .child then (0.2 : ℚ)
        else if p.ageGroup = .adult then 0.05 else 0.2) := by
    norm_num
  refine ⟨?_, ?_, ?_, ?_⟩
  · simp only [determineOutcome]
    rw [hrate]
    by_cases hd : draw < (if p.ageGroup = .child then (0.2 : ℚ)
        else if p.ageGroup = .adult then 0.05 else 0.2)
    · rw [if_pos hd]
      exact iff_of_true rfl hd
    · rw [if_neg hd]
      exact iff_of_false (by simp) hd
  · intro hd
    simp only [determineOutcome]
    rw [hrate, if_pos hd]
  · intro hd
    simp only [determineOutcome]
    rw [hrate, if_neg hd]
  · intro hg
    rw [recoveryUpdate, if_pos hg]

/-- Witness for `determineOutcome_base_mortality` at a concrete
input: a child with draw 0.1 below the base rate 0.2 dies and has its
velocity zeroed. -/
theorem determineOutcome_base_mortality_witness :
    determineOutcome cfgA 100 pChild false (1/10) =
      { pChild with status := .dead, vx := 0, vy := 0 } :=
  (determineOutcome_base_mortality cfgA 100 rZero pChild (1/10) 0).2.1
    (by decide)

/-! ### Invariant preservation through one tick -/

theorem invPerson_default : InvPerson defaultPerson := by
  refine ⟨⟨?_, ?_⟩, ?_, ?_⟩ <;> simp [defaultPerson]

theorem movementUpdate_quarantined (cfg : Config) (r : ℕ → ℚ) (p : Person) (k : ℕ)
    (h : p.status = .quarantined) : movementUpdate cfg r p k = (p, k) := by
  simp only [movementUpdate]
  rw [if_neg (by simp [h])]

theorem movementUpdate_frame (cfg : Config) (r : ℕ → ℚ) (p : Person) (k : ℕ) :
    (movementUpdate cfg r p k).1.status = p.status ∧
    (movementUpdate cfg r p k).1.x = p.x ∧
    (movementUpdate cfg r p k).1.y = p.y ∧
    (movementUpdate cfg r p k).1.infectedTime = p.infectedTime := by
  simp only [movementUpdate]
  split_ifs <;> simp

theorem positionUpdate_frame (cfg : Config) (p : Person) :
    (positionUpdate cfg p).status = p.status ∧
    (positionUpdate cfg p).vx = p.vx ∧ (positionUpdate cfg p).vy = p.vy ∧
    (positionUpdate cfg p).infectedTime = p.infectedTime := by
  simp only [positionUpdate]
  split_ifs <;> simp

theorem positionUpdate_quarantined (cfg : Config) (p : Person)
    (h : p.status = .quarantined) : positionUpdate cfg p = p := by
  simp only [positionUpdate]
  rw [if_neg (by simp [h])]

theorem boundaryUpdate_frame (cfg : Config) (p : Person) :
    (boundaryUpdate cfg p).status = p.status ∧
    (boundaryUpdate cfg p).infectedTime = p.infectedTime ∧
    ((boundaryUpdate cfg p).vx = p.vx ∨ (boundaryUpdate cfg p).vx = -p.vx) ∧
    ((boundaryUpdate cfg p).vy = p.vy ∨ (boundaryUpdate cfg p).vy = -p.vy) := by
  simp only [boundaryUpdate]
  split_ifs <;> simp

theorem boundaryUpdate_inBounds (cfg : Config) (p : Person) (hx1 : ¬p.x < 5)
    (hx2 : ¬p.x > cfg.w - 5) (hy1 : ¬p.y < 5) (hy2 : ¬p.y > cfg.h - 5) :
    boundaryUpdate cfg p = p := by
  simp only [boundaryUpdate]
  rw [if_neg (by tauto : ¬(p.x < 5 ∨ p.x > cfg.w - 5)),
    if_neg (by tauto : ¬(p.y < 5 ∨ p.y > cfg.h - 5))]

theorem exposedUpdate_not_exposed (time : ℚ) (r : ℕ → ℚ) (p : Person) (k : ℕ)
    (h : p.status ≠ .exposed) : exposedUpdate time r p k = (p, k) := by
  simp only [exposedUpdate]
  rw [if_neg (by simp [h])]

theorem quarantineUpdate_not_infected (cfg : Config) (time : ℚ) (p : Person)
    (h : p.status ≠ .infected) : quarantineUpdate cfg time p = p := by
  simp only [quarantineUpdate]
  rw [if_neg (by simp [h])]

theorem recoveryUpdate_pos (cfg : Config) (time : ℚ) (r : ℕ → ℚ) (p : Person) (k : ℕ) :
    (recoveryUpdate cfg time r p k).1.x = p.x ∧ (recoveryUpdate cfg time r p k).1.y = p.y := by
  simp only [recoveryUpdate, determineOutcome]
  split_ifs <;> simp

theorem invPerson_movementUpdate (cfg : Config) (r : ℕ → ℚ) (p : Person) (k : ℕ)
    (hd : p.status ≠ .dead) (h : InvPerson p) :
    InvPerson (movementUpdate cfg r p k).1 := by
  by_cases hq : p.status = .quarantined
  · rw [movementUpdate_quarantined cfg r p k hq]
    exact h
  · obtain ⟨hs, _, ht⟩ := h
    have hf := movementUpdate_frame cfg r p k
    refine ⟨⟨?_, ?_⟩, ?_, ?_⟩
    · rw [hf.1]; exact hs.1
    · rw [hf.1]; exact hs.2
    · intro hc
      rw [hf.1] at hc
      rcases hc with h1 | h1
      · exact absurd h1 hq
      · exact absurd h1 hd
    · intro hn
      rw [hf.1] at hn
      rw [hf.2.2.2]
      exact ht hn

theorem invPerson_positionUpdate (cfg : Config) (p : Person) (h : InvPerson p) :
    InvPerson (positionUpdate cfg p) := by
  obtain ⟨hs, hv, ht⟩ := h
  have hf := positionUpdate_frame cfg p
  refine ⟨⟨?_, ?_⟩, ?_, ?_⟩
  · rw [hf.1]; exact hs.1
  · rw [hf.1]; exact hs.2
  · intro hc
    rw [hf.1] at hc
    rw [hf.2.1, hf.2.2.1]
    exact hv hc
  · intro hn
    rw [hf.1] at hn
    rw [hf.2.2.2]
    exact ht hn

theorem invPerson_boundaryUpdate (cfg : Config) (p : Person) (h : InvPerson p) :
    InvPerson (boundaryUpdate cfg p) := by
  obtain ⟨hs, hv, ht⟩ := h
  have hf := boundaryUpdate_frame cfg p
  refine ⟨⟨?_, ?_⟩, ?_, ?_⟩
  · rw [hf.1]; exact hs.1
  · rw [hf.1]; exact hs.2
  · intro hc
    rw [hf.1] at hc
    obtain ⟨hvx, hvy⟩ := hv hc
    constructor
    · rcases hf.2.2.1 with h1 | h1 <;> simp [h1, hvx]
    · rcases hf.2.2.2 with h1 | h1 <;> simp [h1, hvy]
  · intro hn
    rw [hf.1] at hn
    rw [hf.2.1]
    exact ht hn

theorem invPerson_quarantineUpdate (cfg : Config) (time : ℚ) (p : Person)
    (h : InvPerson p) : InvPerson (quarantineUpdate cfg time p) := by
  obtain ⟨hs, hv, ht⟩ := h
  simp only [quarantineUpdate]
  split_ifs with hg
  · refine ⟨⟨by simp, by simp⟩, by simp, ?_⟩
    intro _
    have : p.infectedTime ≠ none := ht (by simp [hg.1])
    simpa using this
  · exact ⟨hs, hv, ht⟩

theorem invPerson_determineOutcome (cfg : Config) (time : ℚ) (p : Person)
    (oc : Bool) (draw : ℚ) (ht : p.infectedTime ≠ none) :
    InvPerson (determineOutcome cfg time p oc draw) := by
  simp only [determineOutcome]
  split_ifs <;>
    exact ⟨⟨by simp, by simp⟩, by simp, fun _ => by simpa using ht⟩

theorem invPerson_recoveryUpdate (cfg : Config) (time : ℚ) (r : ℕ → ℚ) (p : Person)
    (k : ℕ) (h : InvPerson p) : InvPerson (recoveryUpdate cfg time r p k).1 := by
  simp only [recoveryUpdate]
  split_ifs with hg
  · exact invPerson_determineOutcome cfg time p false (r k)
      (h.2.2 (by rcases hg.1 with h1 | h1 | h1 <;> simp [h1]))
  · exact h

theorem invPerson_stepPerson (cfg : Config) (time : ℚ) (r : ℕ → ℚ) (p : Person)
    (k : ℕ) (h : InvPerson p) : InvPerson (stepPerson cfg time r p k).1 := by
  by_cases hd : p.status = .dead
  · rw [stepPerson, if_pos hd]
    exact h
  · simp only [stepPerson]
    rw [if_neg hd]
    have h1 := invPerson_movementUpdate cfg r p k hd h
    have h2 := invPerson_positionUpdate cfg _ h1
    have h3 := invPerson_boundaryUpdate cfg _ h2
    rw [exposedUpdate_not_exposed time r _ _ h3.1.1]
    exact invPerson_recoveryUpdate cfg time r _ _
      (invPerson_quarantineUpdate cfg time _ h3)

theorem invPerson_stepPeople (cfg : Config) (time : ℚ) (r : ℕ → ℚ) (l : List Person) :
    ∀ (k : ℕ), (∀ p ∈ l, InvPerson p) →
      ∀ q ∈ (stepPeople cfg time r l k).1, InvPerson q := by
  induction l with
  | nil =>
    intro k _ q hq
    simp [stepPeople] at hq
  | cons p ps ih =>
    intro k h q hq
    simp only [stepPeople, List.mem_cons] at hq
    rcases hq with rfl | hq
    · exact invPerson_stepPerson cfg time r p k (h p (List.mem_cons_self p ps))
    · exact ih _ (fun a ha => h a (List.mem_cons_of_mem p ha)) q hq

theorem invPerson_attemptInfection (cfg : Config) (time : ℚ) (p1 p2 : Person)
    (draw : ℚ) (h1 : InvPerson p1) (h2 : InvPerson p2) :
    InvPerson (attemptInfection cfg time p1 p2 draw).src ∧
    InvPerson (attemptInfection cfg time p1 p2 draw).tgt := by
  simp only [attemptInfection]
  by_cases hA : p1.status = .quarantined ∨ p2.status = .quarantined
  · rw [if_pos hA]
    exact ⟨h1, h2⟩
  · rw [if_neg hA]
    by_cases hB : (p1.status = .infected ∨ p1.status = .asymptomatic) ∧
        p2.status = .healthy
    · rw [if_pos hB]
      by_cases hC : draw < cfg.infectionRate * (if cfg.maskEnabled then (0.5 : ℚ) else 1) *
          (if p1.status = .asymptomatic then (0.5 : ℚ) else 1)
      · rw [if_pos hC]
        exact ⟨h1, ⟨by simp, by simp⟩, by simp, by simp⟩
      · rw [if_neg hC]
        exact ⟨h1, h2⟩
    · rw [if_neg hB]
      exact ⟨h1, h2⟩

theorem invPerson_getD (l : List Person) (i : ℕ) (h : ∀ p ∈ l, InvPerson p) :
    InvPerson (l.getD i defaultPerson) := by
  rcases Nat.lt_or_ge i l.length with hi | hi
  · rw [List.getD_eq_getElem l defaultPerson hi]
    exact h _ (List.getElem_mem hi)
  · rw [List.getD_eq_default l defaultPerson hi]
    exact invPerson_default

theorem forall_mem_set {P : Person → Prop} (l : List Person) (i : ℕ) (a : Person)
    (h : ∀ p ∈ l, P p) (ha : P a) : ∀ p ∈ l.set i a, P p := fun p hp =>
  (List.mem_or_eq_of_mem_set hp).elim (h p) (fun e => e ▸ ha)

theorem invPerson_pairCollide (cfg : Config) (time : ℚ) (r : ℕ → ℚ) (p1 p2 : Person)
    (k : ℕ) (h1 : InvPerson p1) (h2 : InvPerson p2) :
    InvPerson (pairCollide cfg time r p1 p2 k).1 ∧
    InvPerson (pairCollide cfg time r p1 p2 k).2.1 := by
  simp only [pairCollide]
  have hs1 : InvPerson (separated p1 p2).1 := h1
  have hs2 : InvPerson (separated p1 p2).2 := h2
  have ha1 := invPerson_attemptInfection cfg time (separated p1 p2).1
    (separated p1 p2).2 (r k) hs1 hs2
  have ha2 := invPerson_attemptInfection cfg time _ _
    (r (k + if (attemptInfection cfg time (separated p1 p2).1 (separated p1 p2).2
      (r k)).drew then 1 else 0)) ha1.2 ha1.1
  exact ⟨ha2.2, ha2.1⟩

theorem invPerson_pairStep (cfg : Config) (time : ℚ) (r : ℕ → ℚ) (st : PairState)
    (ij : ℕ × ℕ) (h : ∀ p ∈ st.people, InvPerson p) :
    ∀ p ∈ (pairStep cfg time r st ij).people, InvPerson p := by
  simp only [pairStep]
  split
  · have hint := invPerson_pairCollide cfg time r (st.people.getD ij.1 defaultPerson)
      (st.people.getD ij.2 defaultPerson) st.k
      (invPerson_getD _ _ h) (invPerson_getD _ _ h)
    exact forall_mem_set _ _ _ (forall_mem_set _ _ _ h hint.1) hint.2
  · exact h

theorem invPerson_foldl_pairStep (cfg : Config) (time : ℚ) (r : ℕ → ℚ)
    (pairs : List (ℕ × ℕ)) :
    ∀ (st : PairState), (∀ p ∈ st.people, InvPerson p) →
      ∀ p ∈ (pairs.foldl (pairStep cfg time r) st).people, InvPerson p := by
  induction pairs with
  | nil =>
    intro st h
    simpa using h
  | cons ij rest ih =>
    intro st h
    rw [List.foldl_cons]
    exact ih _ (invPerson_pairStep cfg time r st ij h)

theorem invSim_updateSimulation (cfg : Config) (r : ℕ → ℚ) (sim : Sim) (k : ℕ)
    (h : InvSim sim) : InvSim (updateSimulation cfg r sim k).1 := by
  intro p hp
  simp only [updateSimulation] at hp
  exact invPerson_foldl_pairStep cfg _ r _ _
    (invPerson_stepPeople cfg _ r sim.people k h) p hp

theorem invSim_updateParameters (rt : ℚ) (sim : Sim) (h : InvSim sim) :
    InvSim (updateSimulationParameters rt sim) := by
  intro p hp
  simp only [updateSimulationParameters] at hp
  split at hp
  · exact h p hp
  · simp only [List.mem_map] at hp
    obtain ⟨q, hq, rfl⟩ := hp
    exact h q hq

theorem invSim_initSimulation (cfg : Config) (rnd : ℕ → InitRand) :
    InvSim (initSimulation cfg rnd) := by
  intro p hp
  simp only [initSimulation, List.mem_map] at hp
  obtain ⟨i, _, rfl⟩ := hp
  simp only [initPerson]
  by_cases hlt : i < cfg.initialInfected <;>
    refine ⟨⟨?_, ?_⟩, ?_, ?_⟩ <;> simp [hlt]

theorem invSim_reachable (cfg₀ : Config) (sim : Sim) (h : ReachableFrom cfg₀ sim) :
    InvSim sim := by
  induction h with
  | init rnd => exact invSim_initSimulation cfg₀ rnd
  | step cfg r k hprev ih => exact invSim_updateSimulation cfg r _ k ih
  | params rt hprev ih => exact invSim_updateParameters rt _ ih

theorem reachable_advanceSteps (cfg₀ cfg : Config) (r : ℕ → ℚ) (n : ℕ)
    {sim : Sim} (h : ReachableFrom cfg₀ sim) :
    ReachableFrom cfg₀ (advanceSteps cfg r n sim) := by
  induction n with
  | zero => simpa [advanceSteps] using h
  | succ m ih =>
    rw [advanceSteps, Function.iterate_succ_apply']
    exact ReachableFrom.step cfg r 0 ih

/-! ### Population size is preserved -/

theorem stepPeople_length (cfg : Config) (time : ℚ) (r : ℕ → ℚ) (l : List Person) :
    ∀ k, (stepPeople cfg time r l k).1.length = l.length := by
  induction l with
  | nil => intro k; rfl
  | cons p ps ih =>
    intro k
    simp only [stepPeople, List.length_cons]
    rw [ih]

theorem pairStep_length (cfg : Config) (time : ℚ) (r : ℕ → ℚ) (st : PairState)
    (ij : ℕ × ℕ) : (pairStep cfg time r st ij).people.length = st.people.length := by
  simp only [pairStep]
  split <;> simp [List.length_set]

theorem foldl_pairStep_length (cfg : Config) (time : ℚ) (r : ℕ → ℚ)
    (pairs : List (ℕ × ℕ)) :
    ∀ st, (pairs.foldl (pairStep cfg time r) st).people.length = st.people.length := by
  induction pairs with
  | nil => intro st; rfl
  | cons ij rest ih =>
    intro st
    rw [List.foldl_cons, ih, pairStep_length]

theorem updateSimulation_length (cfg : Config) (r : ℕ → ℚ) (sim : Sim) (k : ℕ) :
    (updateSimulation cfg r sim k).1.people.length = sim.people.length := by
  simp only [updateSimulation]
  rw [foldl_pairStep_length]
  exact stepPeople_length cfg _ r sim.people k

theorem updateParameters_length (rt : ℚ) (sim : Sim) :
    (updateSimulationParameters rt sim).people.length = sim.people.length := by
  simp only [updateSimulationParameters]
  split <;> simp

theorem initSimulation_length (cfg : Config) (rnd : ℕ → InitRand) :
    (initSimulation cfg rnd).people.length = cfg.populationSize := by
  simp [initSimulation]

theorem reachable_length (cfg₀ : Config) (sim : Sim) (h : ReachableFrom cfg₀ sim) :
    sim.people.length = cfg₀.populationSize := by
  induction h with
  | init rnd => exact initSimulation_length cfg₀ rnd
  | step cfg r k hprev ih => rw [updateSimulation_length]; exact ih
  | params rt hprev ih => rw [updateParameters_length]; exact ih

theorem count_total (l : List Person) :
    (l.filter fun p => decide (p.status = .healthy)).length +
      (l.filter fun p => decide (p.status = .exposed)).length +
      (l.filter fun p => decide (p.status = .infected)).length +
      (l.filter fun p => decide (p.status = .asymptomatic)).length +
      (l.filter fun p => decide (p.status = .quarantined)).length +
      (l.filter fun p => decide (p.status = .recovered)).length +
      (l.filter fun p => decide (p.status = .dead)).length = l.length := by
  induction l with
  | nil => rfl
  | cons p ps ih =>
    cases h : p.status <;> simp [List.filter_cons, h] <;> omega

/-! ### Claim C5 -/

/-- Claim C5: in every state reachable from an initialization with
configuration `cfg₀`, the seven per-status counts sum to the
population size — neither `advance` nor a parameter update creates or
destroys an agent, and every agent is in exactly one of the seven
statuses. -/
theorem population_conserved (cfg₀ : Config) (sim : Sim)
    (h : ReachableFrom cfg₀ sim) :
    countStatus .healthy sim + countStatus .exposed sim + countStatus .infected sim +
      countStatus .asymptomatic sim + countStatus .quarantined sim +
      countStatus .recovered sim + countStatus .dead sim = cfg₀.populationSize :=
  (count_total sim.people).trans (reachable_length cfg₀ sim h)

/-- Witness for `population_conserved` at a freshly initialized
two-agent state. -/
theorem population_conserved_witness :
    countStatus .healthy (initSimulation cfgA rndConst) +
      countStatus .exposed (initSimulation cfgA rndConst) +
      countStatus .infected (initSimulation cfgA rndConst) +
      countStatus .asymptomatic (initSimulation cfgA rndConst) +
      countStatus .quarantined (initSimulation cfgA rndConst) +
      countStatus .recovered (initSimulation cfgA rndConst) +
      countStatus .dead (initSimulation cfgA rndConst) = cfgA.populationSize :=
  population_conserved cfgA _ (ReachableFrom.init rndConst)

/-! ### Claim C9 -/

/-- Claim C9: in every reachable state there is no Exposed and no
Infectious-Asymptomatic agent — a successful transmission immediately
overwrites the Exposed status with Infectious-Symptomatic,
initialization creates only Healthy and Infectious-Symptomatic
agents, so the branch that alone assigns the asymptomatic status
never fires. -/
theorem no_exposed_no_asymptomatic (cfg₀ : Config) (sim : Sim)
    (h : ReachableFrom cfg₀ sim) :
    countStatus .exposed sim = 0 ∧ countStatus .asymptomatic sim = 0 := by
  have hinv := invSim_reachable cfg₀ sim h
  constructor
  · rw [countStatus, List.length_eq_zero, List.filter_eq_nil_iff]
    intro p hp
    simpa using (hinv p hp).1.1
  · rw [countStatus, List.length_eq_zero, List.filter_eq_nil_iff]
    intro p hp
    simpa using (hinv p hp).1.2

/-- Witness for `no_exposed_no_asymptomatic` at a freshly initialized
state. -/
theorem no_exposed_no_asymptomatic_witness :
    countStatus .exposed (initSimulation cfgA rndConst) = 0 ∧
    countStatus .asymptomatic (initSimulation cfgA rndConst) = 0 :=
  no_exposed_no_asymptomatic cfgA _ (ReachableFrom.init rndConst)

/-! ### Claim C7 -/

/-- Claim C7: in every reachable state, R₀ as computed by the engine
equals the mean transmission count over exactly the agents with
`id < initialInfectedCount` whose status is Recovered or Dead, and is
absent exactly when that subset is empty; Rₜ likewise over all agents
whose status is Recovered or Dead.  (The extra `infectedTime ≠ null`
conjunct in the source filters is redundant on reachable states.) -/
theorem reproduction_numbers (cfg₀ : Config) (sim : Sim)
    (h : ReachableFrom cfg₀ sim) (n : ℕ) :
    r0Value n sim = r0Spec n sim ∧ rtValue sim = rtSpec sim ∧
    (r0Value n sim = none ↔ r0SpecList n sim = []) ∧
    (rtValue sim = none ↔ rtSpecList sim = []) := by
  have hinv := invSim_reachable cfg₀ sim h
  have hmem : ∀ p ∈ sim.people,
      (p.infectedTime.isSome && decide (p.status = .recovered ∨ p.status = .dead)) =
        decide (p.status = .recovered ∨ p.status = .dead) := by
    intro p hp
    by_cases hrd : p.status = .recovered ∨ p.status = .dead
    · have hnn : p.infectedTime ≠ none :=
        (hinv p hp).2.2 (by rcases hrd with h1 | h1 <;> simp [h1])
      have hs : p.infectedTime.isSome = true := Option.ne_none_iff_isSome.mp hnn
      simp [hs, hrd]
    · simp [hrd]
  have hl0 : r0List n sim = r0SpecList n sim := by
    unfold r0List r0SpecList
    refine List.filter_congr fun p hp => ?_
    rw [Bool.and_assoc, hmem p hp]
  have hl1 : rtList sim = rtSpecList sim := by
    unfold rtList rtSpecList
    exact List.filter_congr fun p hp => hmem p hp
  refine ⟨?_, ?_, ?_, ?_⟩
  · simp only [r0Value, r0Spec]
    rw [hl0]
  · simp only [rtValue, rtSpec]
    rw [hl1]
  · simp only [r0Value]
    rw [hl0]
    rcases eq_or_ne (r0SpecList n sim).length 0 with hz | hz
    · rw [if_pos hz]
      simp [List.length_eq_zero.mp hz]
    · rw [if_neg hz]
      simp [← List.length_eq_zero, hz]
  · simp only [rtValue]
    rw [hl1]
    rcases eq_or_ne (rtSpecList sim).length 0 with hz | hz
    · rw [if_pos hz]
      simp [List.length_eq_zero.mp hz]
    · rw [if_neg hz]
      simp [← List.length_eq_zero, hz]

/-- Witness for `reproduction_numbers` at a freshly initialized
state. -/
theorem reproduction_numbers_witness :
    r0Value 1 (initSimulation cfgA rndConst) = r0Spec 1 (initSimulation cfgA rndConst) ∧
    rtValue (initSimulation cfgA rndConst) = rtSpec (initSimulation cfgA rndConst) ∧
    (r0Value 1 (initSimulation cfgA rndConst) = none ↔
      r0SpecList 1 (initSimulation cfgA rndConst) = []) ∧
    (rtValue (initSimulation cfgA rndConst) = none ↔
      rtSpecList (initSimulation cfgA rndConst) = []) :=
  reproduction_numbers cfgA _ (ReachableFrom.init rndConst) 1

/-! ### Claim C2 -/

/-- Claim C2, amended: Quarantined and Dead agents always have
velocity `(0, 0)` (an invariant of reachable states), a Dead agent is
left completely unchanged by the per-agent update phase, and a
Quarantined agent inside the arena margins is not displaced by the
per-agent update phase — but the collision de-overlap step of the
same `advance` call can still displace them (see the
counterexample). -/
theorem quarantined_dead_pinned :
    (∀ (cfg₀ : Config) (sim : Sim), ReachableFrom cfg₀ sim → ∀ p ∈ sim.people,
      p.status = .quarantined ∨ p.status = .dead → p.vx = 0 ∧ p.vy = 0) ∧
    (∀ (cfg : Config) (time : ℚ) (r : ℕ → ℚ) (p : Person) (k : ℕ),
      p.status = .dead → stepPerson cfg time r p k = (p, k)) ∧
    (∀ (cfg : Config) (time : ℚ) (r : ℕ → ℚ) (p : Person) (k : ℕ),
      p.status = .quarantined → ¬p.x < 5 → ¬p.x > cfg.w - 5 → ¬p.y < 5 →
      ¬p.y > cfg.h - 5 →
      (stepPerson cfg time r p k).1.x = p.x ∧ (stepPerson cfg time r p k).1.y = p.y) := by
  refine ⟨?_, ?_, ?_⟩
  · intro cfg₀ sim h p hp hq
    exact (invSim_reachable cfg₀ sim h p hp).2.1 hq
  · intro cfg time r p k hd
    rw [stepPerson, if_pos hd]
  · intro cfg time r p k hq hx1 hx2 hy1 hy2
    have hnd : ¬p.status = .dead := by simp [hq]
    simp only [stepPerson]
    rw [if_neg hnd]
    simp only [movementUpdate_quarantined cfg r p k hq,
      positionUpdate_quarantined cfg p hq,
      boundaryUpdate_inBounds cfg p hx1 hx2 hy1 hy2,
      exposedUpdate_not_exposed time r p k (by simp [hq]),
      quarantineUpdate_not_infected cfg time p (by simp [hq])]
    exact recoveryUpdate_pos cfg time r p k

set_option maxRecDepth 10000 in
/-- Witness for `quarantined_dead_pinned`: the dead agent of the
50-tick run has velocity pinned to zero. -/
theorem quarantined_dead_pinned_witness :
    (deadStateC2.people.getD 0 defaultPerson).vx = 0 ∧
    (deadStateC2.people.getD 0 defaultPerson).vy = 0 :=
  quarantined_dead_pinned.1 cfgC2 deadStateC2
    (reachable_advanceSteps cfgC2 cfgC2 rC2 50 (ReachableFrom.init rndC2))
    (deadStateC2.people.getD 0 defaultPerson) (by decide) (Or.inr (by decide))

set_option maxRecDepth 10000 in
/-- Claim C2, counterexample: after 50 ticks agent 0 is Dead at
x-coordinate 100, and the 51st `advance` call moves it (the collision
de-overlap step pushes the dead agent away from the approaching
healthy agent), so the position of a Dead agent is not unchanged
across an `advance` call. -/
theorem dead_agent_displaced_counterexample :
    ReachableFrom cfgC2 deadStateC2 ∧
    (deadStateC2.people.getD 0 defaultPerson).status = .dead ∧
    (deadStateC2.people.getD 0 defaultPerson).x = 100 ∧
    ((updateSimulation cfgC2 rC2 deadStateC2 0).1.people.getD 0 defaultPerson).x =
      1999 / 20 ∧
    ((updateSimulation cfgC2 rC2 deadStateC2 0).1.people.getD 0 defaultPerson).x ≠
      (deadStateC2.people.getD 0 defaultPerson).x := by
  refine ⟨reachable_advanceSteps cfgC2 cfgC2 rC2 50 (ReachableFrom.init rndC2),
    ?_, ?_, ?_, ?_⟩ <;> decide

/-! ### Claim C10 -/

set_option maxRecDepth 10000 in
/-- Claim C10: same-tick chained transmission.  From the reachable
initial state `simC10` (agent 0 infected at (100,100), agents 1 and 2
healthy at (105,100) and (111,100)), a single `advance` call with
all-zero draws makes agent 0 infect agent 1 in the pair (0,1) of the
contact scan, and the freshly infected agent 1 then infects agent 2
in the later pair (1,2) of the same scan: both transmission events
carry the same timestamp 16. -/
theorem same_tick_chained_transmission :
    ReachableFrom cfgC10 simC10 ∧
    (simC10.people.getD 1 defaultPerson).status = .healthy ∧
    (simC10.people.getD 2 defaultPerson).status = .healthy ∧
    (updateSimulation cfgC10 rZero simC10 0).1.infections =
      [⟨0, 1, 16⟩, ⟨1, 2, 16⟩] ∧
    ((updateSimulation cfgC10 rZero simC10 0).1.people.getD 1 defaultPerson).infectedBy =
      some 0 ∧
    ((updateSimulation cfgC10 rZero simC10 0).1.people.getD 2 defaultPerson).infectedBy =
      some 1 := by
  refine ⟨ReachableFrom.init rndC10, ?_, ?_, ?_, ?_, ?_⟩ <;> decide

end Epidemic
